import Mathlib

/-!
# Verification of the monaco-service event ingestion and dispatch engine

Shallow embedding of src/main.go of bacherfl/monaco-service (a Keptn task
service) together with the pieces of its contract that live outside src/
(the eventhandler.go handlers and the keptn go-utils task session), which
are modelled from the specification where so marked.
-/

namespace MonacoService

/-- A structured (JSON-like) transport value, the payload representation used
by the CloudEvents structured encoding. -/
inductive Json where
  | null : Json
  | str (s : String) : Json
  | num (n : Int) : Json
  | bool (b : Bool) : Json
  | arr (xs : List Json) : Json
  | obj (fields : List (String × Json)) : Json
deriving Repr

/-- An inbound event envelope (CloudEvent): type, id, source, extension
attributes (the correlation id travels as the "shkeptncontext" extension) and
an opaque structured payload (data). -/
structure Envelope where
  type : String
  id : String
  source : String
  extensions : List (String × String)
  data : Json
deriving Repr

/-- ServiceName from src/main.go line 34: source of outgoing CloudEvents. -/
def ServiceName : String := "monaco-service"

/-- MonacoEvent from src/main.go line 35: the task name of the monaco task. -/
def MonacoEvent : String := "monaco"

/-- ConfigureMonitoringTaskName from the keptn go-utils library, as used at
src/main.go line 133. -/
def ConfigureMonitoringTaskName : String := "configure-monitoring"

/-- The leading part shared by all keptn event types (named
keptnEventTypePrefix in the go-utils library); event types follow the
pattern sh.keptn.event.TASK.PHASE (src/main.go lines 74-79). -/
def keptnEventTypeBase : String := "sh.keptn.event."

/-- keptnv2.GetTriggeredEventType: sh.keptn.event.TASK.triggered. -/
def getTriggeredEventType (task : String) : String :=
  keptnEventTypeBase ++ task ++ ".triggered"

/-- keptnv2.GetStartedEventType: sh.keptn.event.TASK.started. -/
def getStartedEventType (task : String) : String :=
  keptnEventTypeBase ++ task ++ ".started"

/-- keptnv2.GetFinishedEventType: sh.keptn.event.TASK.finished. -/
def getFinishedEventType (task : String) : String :=
  keptnEventTypeBase ++ task ++ ".finished"

/-! ## Correlation context extraction (src/main.go lines 56-58) -/

/-- The call event.Context.ExtensionAs(name, target) with the error ignored
and the target zero-initialized (src/main.go lines 56-57): yields the
extension value when present, the empty string otherwise. -/
def extensionAs (ev : Envelope) (name : String) : String :=
  match ev.extensions.lookup name with
  | some v => v
  | none => ""

/-- The logging/tracing context built at src/main.go line 58 by
keptn.NewLogger(shkeptncontext, event.Context.GetID(), ServiceName). -/
structure CorrelationContext where
  keptnContext : String
  eventId : String
  serviceName : String
deriving Repr

/-- Correlation context extraction as performed by processKeptnCloudEvent
(src/main.go lines 56-58): a total function of the envelope. -/
def extractCorrelationContext (ev : Envelope) : CorrelationContext :=
  { keptnContext := extensionAs ev "shkeptncontext"
    eventId := ev.id
    serviceName := ServiceName }

/-! ## Envelope codec.

Modelled from the spec: the envelope codec (CloudEvents structured JSON
encoding/decoding) is provided by the cloudevents SDK, which is not part of
the sources of this repository. Per the spec, decode fails when the input is
not well-formed structured data or when type/id are missing; everything else
is preserved structurally. -/

/-- Modelled from the spec: encode an envelope into its structured transport
representation (a JSON object holding type, id, source, extensions, data).
The codec itself lives in the cloudevents SDK, not under src/. -/
def encode (e : Envelope) : Json :=
  .obj [("type", .str e.type),
        ("id", .str e.id),
        ("source", .str e.source),
        ("extensions", .obj (e.extensions.map (fun p => (p.1, .str p.2)))),
        ("data", e.data)]

/-- Read an extension map back out of its structured representation; every
entry must be a string-valued attribute. -/
def jsonToExtensions : Json → Option (List (String × String))
  | .obj fields =>
      fields.foldr
        (fun p acc =>
          match p.2, acc with
          | .str s, some l => some ((p.1, s) :: l)
          | _, _ => none)
        (some [])
  | _ => none

/-- Modelled from the spec: decode a structured transport value into an
envelope; fails with a DecodeError when the value is not a structured
object or when type or id is missing. The codec itself lives in the
cloudevents SDK, not under src/. -/
def decode (j : Json) : Except String Envelope :=
  match j with
  | .obj fields =>
    match fields.lookup "type", fields.lookup "id" with
    | some (.str ty), some (.str i) =>
      .ok { type := ty
            id := i
            source := (match fields.lookup "source" with
                       | some (.str s) => s
                       | _ => "")
            extensions := (match fields.lookup "extensions" with
                           | some e => (jsonToExtensions e).getD []
                           | none => [])
            data := (fields.lookup "data").getD .null }
    | _, _ => .error "DecodeError: type or id missing"
  | _ => .error "DecodeError: payload is not well-formed structured data"

/-! ## Process configuration (src/main.go lines 18-27 and 228-235) -/

/-- envConfig from src/main.go lines 18-27, with the envconfig defaults
recorded in its struct tags. -/
structure envConfig where
  Port : Nat
  Path : String
  Env : String
  ConfigurationServiceUrl : String
deriving Repr, DecidableEq

/-- A string-valued option of the environment: the value of the variable
when set, the struct-tag default otherwise (kelseyhightower/envconfig). -/
def envString (lookupEnv : String → Option String) (key dflt : String) : String :=
  (lookupEnv key).getD dflt

/-- envconfig.Process applied to envConfig (src/main.go lines 217-220):
reads RCV_PORT (default 8080), RCV_PATH (default "/"), ENV (default
"local") and CONFIGURATION_SERVICE (default ""); fails when a set port
value does not parse as a number. -/
def envconfigProcess (lookupEnv : String → Option String) : Except String envConfig :=
  match (match lookupEnv "RCV_PORT" with
         | none => Except.ok 8080
         | some s =>
             match s.toNat? with
             | some n => Except.ok n
             | none => Except.error ("envconfig.Process: assigning RCV_PORT: " ++ s)) with
  | .error e => .error e
  | .ok port =>
    .ok { Port := port
          Path := envString lookupEnv "RCV_PATH" "/"
          Env := envString lookupEnv "ENV" "local"
          ConfigurationServiceUrl := envString lookupEnv "CONFIGURATION_SERVICE" "" }

/-- keptn.KeptnOpts as configured by this service: the fields written by
the function _main (src/main.go lines 229-235). Zero value: remote
fetching, empty URL. -/
structure KeptnOpts where
  useLocalFileSystem : Bool := false
  configurationServiceURL : String := ""
deriving Repr, DecidableEq

/-- The keptn option configuration performed by _main (src/main.go lines
229-235): starting from the zero-valued global keptnOptions, it sets
UseLocalFileSystem when env.Env == "local" and always copies the
configuration service URL. -/
def configureKeptnOptions (env : envConfig) : KeptnOpts :=
  let o : KeptnOpts := {}
  let o := if env.Env == "local" then { o with useLocalFileSystem := true } else o
  { o with configurationServiceURL := env.ConfigurationServiceUrl }

/-! ## Payload deserialization (event.DataAs) -/

/-- The relevant part of keptnv2.EventData, the structure embedded in
MonacoStartedEventData (src/main.go lines 29-31) and in
ConfigureMonitoringTriggeredEventData; JSON-unmarshalled from the data
attribute of the envelope. -/
structure EventData where
  project : String := ""
  stage : String := ""
  service : String := ""
deriving Repr, DecidableEq

/-- Unmarshal one string field of a JSON object the way encoding/json does
for a Go string struct field: absent means zero value, a non-string value
is a type mismatch. -/
def getStrField (fields : List (String × Json)) (name : String) : Except String String :=
  match fields.lookup name with
  | none => .ok ""
  | some (.str s) => .ok s
  | some _ => .error ("json: cannot unmarshal field " ++ name)

/-- event.DataAs(target): JSON-unmarshal the envelope payload into the
EventData structure expected by the handler; a JSON null leaves the zero
value, a non-object payload or a wrongly typed field is a mismatch error. -/
def dataAsEventData : Json → Except String EventData
  | .null => .ok {}
  | .obj fields =>
    match getStrField fields "project" with
    | .error e => .error e
    | .ok p =>
      match getStrField fields "stage" with
      | .error e => .error e
      | .ok st =>
        match getStrField fields "service" with
        | .error e => .error e
        | .ok sv => .ok { project := p, stage := st, service := sv }
  | _ => .error "json: cannot unmarshal payload into event data"

/-- Result of parseKeptnCloudEventPayload (src/main.go lines 40-47): either
the parsed data, or fatal — log.Fatalf terminates the process, so the
statement return err after it never runs. -/
inductive ParseOutcome where
  | ok (d : EventData)
  | fatal (msg : String)
deriving Repr, DecidableEq

/-- parseKeptnCloudEventPayload (src/main.go lines 40-47): calls
event.DataAs; on error it calls log.Fatalf("Got Data Error: ..."), which
exits the process. -/
def parseKeptnCloudEventPayload (ev : Envelope) : ParseOutcome :=
  match dataAsEventData ev.data with
  | .ok d => .ok d
  | .error m => .fatal ("Got Data Error: " ++ m)

/-! ## Task session (keptn handler) -/

/-- The part of the keptnv2.Keptn handler this service relies on: the
correlation id (KeptnContext, from the "shkeptncontext" extension) and the
id of the triggering event, used to correlate outgoing lifecycle events. -/
structure KeptnHandler where
  keptnContext : String
  triggeredId : String
deriving Repr, DecidableEq

/-- Modelled from the spec: keptnv2.NewKeptn (keptn go-utils library, not
part of the sources of this repository) builds the task session from the
inbound envelope; the correlation id is read best-effort from the
"shkeptncontext" extension, and decode failures are handled earlier, so
session construction itself succeeds. -/
def newKeptnSpec (ev : Envelope) : Except String KeptnHandler :=
  .ok { keptnContext := extensionAs ev "shkeptncontext", triggeredId := ev.id }

/-- Status carried by a finished lifecycle event. -/
inductive Status where
  | succeeded
  | failed
  | errored
deriving Repr, DecidableEq

/-- An outgoing lifecycle event (started or finished) as emitted through
the task session: type, source, correlation id, causing triggered-event id,
and (for finished) a status and message. -/
structure OutEvent where
  type : String
  source : String
  shkeptncontext : String
  triggeredId : String
  status : Option Status
  message : String
deriving Repr, DecidableEq

/-- Modelled from the spec: SendTaskStartedEvent of the task session emits
sh.keptn.event.TASK.started correlated to the triggering event id and
carrying the correlation id of the session. -/
def sendTaskStartedEvent (k : KeptnHandler) (task : String) : OutEvent :=
  { type := getStartedEventType task
    source := ServiceName
    shkeptncontext := k.keptnContext
    triggeredId := k.triggeredId
    status := none
    message := "" }

/-- Modelled from the spec: SendTaskFinishedEvent of the task session emits
sh.keptn.event.TASK.finished with a status and message, correlated like
the started event. -/
def sendTaskFinishedEvent (k : KeptnHandler) (task : String) (st : Status)
    (message : String) : OutEvent :=
  { type := getFinishedEventType task
    source := ServiceName
    shkeptncontext := k.keptnContext
    triggeredId := k.triggeredId
    status := some st
    message := message }

/-! ## Task handlers.

HandleMonacoTriggeredEvent and HandleConfigureMonitoringTriggeredEvent live
in eventhandler.go, which is not among the sources here (only its test
eventhandler_test.go and its caller processKeptnCloudEvent are); they are
modelled from the spec. -/

/-- Outcome of the external business logic run by a task handler: success, a
handled business-logic failure, or an unexpected fault (panic/throw). -/
inductive TaskOutcome where
  | success
  | failure (msg : String)
  | fault (msg : String)
deriving Repr, DecidableEq

/-- The finished status a task outcome maps to: succeeded / failed /
errored. -/
def statusOfOutcome : TaskOutcome → Status
  | .success => .succeeded
  | .failure _ => .failed
  | .fault _ => .errored

/-- The human-readable message a task outcome maps to. -/
def messageOfOutcome : TaskOutcome → String
  | .success => ""
  | .failure m => m
  | .fault m => m

/-- Modelled from the spec: a triggered-task handler emits started, runs
the external business logic, and emits exactly one finished on every exit
path — success, handled failure, or fault, the fault being caught and
converted to status errored; the caught error is not re-raised. -/
def runTriggeredHandler (k : KeptnHandler) (task : String)
    (outcome : TaskOutcome) : List OutEvent × Option String :=
  ([sendTaskStartedEvent k task,
    sendTaskFinishedEvent k task (statusOfOutcome outcome) (messageOfOutcome outcome)],
   none)

/-- Modelled from the spec: HandleMonacoTriggeredEvent (eventhandler.go,
not under the given sources) — the monaco task handler, following the
lifecycle contract of runTriggeredHandler. -/
def HandleMonacoTriggeredEvent (k : KeptnHandler) (outcome : TaskOutcome) :
    List OutEvent × Option String :=
  runTriggeredHandler k MonacoEvent outcome

/-- Modelled from the spec: HandleConfigureMonitoringTriggeredEvent
(eventhandler.go, not under the given sources) — the configure-monitoring
handler, following the lifecycle contract of runTriggeredHandler. -/
def HandleConfigureMonitoringTriggeredEvent (k : KeptnHandler)
    (outcome : TaskOutcome) : List OutEvent × Option String :=
  runTriggeredHandler k ConfigureMonitoringTaskName outcome

/-! ## The router: processKeptnCloudEvent (src/main.go lines 54-207) -/

/-- How one call of processKeptnCloudEvent returns (or fails to):
* newKeptnError — the early return at lines 63-65 when NewKeptn fails;
* parseErrorBranch — the second check of err at lines 69-72
  ("failed to parse incoming cloudevent");
* fatalExit — log.Fatalf inside parseKeptnCloudEventPayload terminated the
  process, so the function never returns;
* handled — a matched case returned the result of the handler;
* unhandled — no case matched: the event is logged and nil is returned
  (lines 201-206), no error reaches the transport. -/
inductive ProcessOutcome where
  | newKeptnError (e : String)
  | parseErrorBranch (e : String)
  | fatalExit (msg : String)
  | handled (r : Option String)
  | unhandled
deriving Repr, DecidableEq

/-- Everything observable about one call of processKeptnCloudEvent: its
return/exit, which handlers were invoked with which decoded payload, and the
lifecycle events emitted through the session. -/
structure ProcessTrace where
  outcome : ProcessOutcome
  invocations : List (String × EventData)
  emitted : List OutEvent
deriving Repr, DecidableEq

/-- errOf res is the Go variable err assigned by
myKeptn, err := keptnv2.NewKeptn(...) at src/main.go line 62: the error
component of the result. -/
def errOf (res : Except String KeptnHandler) : Option String :=
  match res with
  | .error e => some e
  | .ok _ => none

/-- processKeptnCloudEvent (src/main.go lines 54-207), parameterized by the
session constructor (newKeptn, the library call at line 62) and by the
external business outcome of each registered handler: extract the
correlation context, build the keptn handler (early return on error),
re-check the same err variable (lines 69-72), then switch on the event
type: configure-monitoring.triggered and monaco.triggered parse the payload
(a parse failure exits the process inside parseKeptnCloudEventPayload, its
returned error being discarded at the call sites on lines 137 and 149) and
invoke their handler; any other type is logged as unhandled and nil is
returned. -/
def processKeptnCloudEvent (newKeptn : Envelope → Except String KeptnHandler)
    (monacoOutcome cmOutcome : TaskOutcome) (ev : Envelope) : ProcessTrace :=
  let res := newKeptn ev
  match res with
  | .error e =>
    { outcome := .newKeptnError ("Could not create Keptn Handler: " ++ e)
      invocations := [], emitted := [] }
  | .ok myKeptn =>
    match errOf res with
    | some e => { outcome := .parseErrorBranch e, invocations := [], emitted := [] }
    | none =>
      if ev.type == getTriggeredEventType ConfigureMonitoringTaskName then
        match parseKeptnCloudEventPayload ev with
        | .fatal m => { outcome := .fatalExit m, invocations := [], emitted := [] }
        | .ok eventData =>
          let r := HandleConfigureMonitoringTriggeredEvent myKeptn cmOutcome
          { outcome := .handled r.2
            invocations := [(ConfigureMonitoringTaskName, eventData)]
            emitted := r.1 }
      else if ev.type == getTriggeredEventType MonacoEvent then
        match parseKeptnCloudEventPayload ev with
        | .fatal m => { outcome := .fatalExit m, invocations := [], emitted := [] }
        | .ok eventData =>
          let r := HandleMonacoTriggeredEvent myKeptn monacoOutcome
          { outcome := .handled r.2
            invocations := [(MonacoEvent, eventData)]
            emitted := r.1 }
      else
        { outcome := .unhandled, invocations := [], emitted := [] }

/-- An outgoing event is a finished lifecycle event of one of the two tasks
this service registers. -/
def isFinishedOut (e : OutEvent) : Bool :=
  e.type == getFinishedEventType MonacoEvent ||
  e.type == getFinishedEventType ConfigureMonitoringTaskName

/-! ## Concrete envelopes used by scenarios, witnesses and counterexamples -/

/-- The scenario envelope of the spec: type sh.keptn.event.monaco.triggered,
payload with project p1, a correlation id. -/
def monacoScenarioEvent : Envelope :=
  { type := "sh.keptn.event.monaco.triggered"
    id := "event-id-1"
    source := "shipyard-controller"
    extensions := [("shkeptncontext", "ctx-1")]
    data := .obj [("project", .str "p1")] }

/-- A monaco.triggered envelope whose payload does not deserialize into the
expected EventData structure (a JSON string instead of an object). -/
def mismatchedMonacoEvent : Envelope :=
  { type := "sh.keptn.event.monaco.triggered"
    id := "event-id-2"
    source := "shipyard-controller"
    extensions := [("shkeptncontext", "ctx-2")]
    data := .str "not-an-object" }

/-- A valid envelope whose type has no registered handler binding. -/
def unknownTaskEvent : Envelope :=
  { type := "sh.keptn.event.deployment.triggered"
    id := "event-id-3"
    source := "shipyard-controller"
    extensions := [("shkeptncontext", "ctx-3")]
    data := .obj [("project", .str "p1")] }

/-- A configure-monitoring.triggered envelope with a correlation id, the
second registered handler binding of src/main.go (line 133). -/
def cmScenarioEvent : Envelope :=
  { type := "sh.keptn.event.configure-monitoring.triggered"
    id := "event-id-5"
    source := "shipyard-controller"
    extensions := [("shkeptncontext", "ctx-5")]
    data := .obj [("project", .str "p1")] }

/-- An envelope without the "shkeptncontext" extension. -/
def noContextEvent : Envelope :=
  { type := "sh.keptn.event.monaco.triggered"
    id := "event-id-4"
    source := "shipyard-controller"
    extensions := [("othercontext", "x")]
    data := .obj [("project", .str "p1")] }

/-! # Claims -/

/-- Claim C1: for every well-formed triggered envelope whose task name has a
registered handler (monaco or configure-monitoring) and that is accepted for
processing (its payload parse did not abort the process), exactly one
finished lifecycle event is emitted — on every exit path of the handler,
i.e. for every business outcome — and that finished event carries the id of
the triggering event as its causation reference. -/
theorem triggered_with_handler_emits_one_finished (ev : Envelope)
    (o₁ o₂ : TaskOutcome) (d : EventData)
    (htype : ev.type = getTriggeredEventType MonacoEvent ∨
             ev.type = getTriggeredEventType ConfigureMonitoringTaskName)
    (hparse : dataAsEventData ev.data = .ok d) :
    ((processKeptnCloudEvent newKeptnSpec o₁ o₂ ev).emitted.filter isFinishedOut).length = 1 ∧
    ∀ e ∈ (processKeptnCloudEvent newKeptnSpec o₁ o₂ ev).emitted,
      isFinishedOut e = true → e.triggeredId = ev.id := by
  have hp : parseKeptnCloudEventPayload ev = .ok d := by
    unfold parseKeptnCloudEventPayload
    rw [hparse]
  rcases htype with h | h <;>
    simp [processKeptnCloudEvent, newKeptnSpec, errOf, h, hp,
      HandleMonacoTriggeredEvent, HandleConfigureMonitoringTriggeredEvent,
      runTriggeredHandler, sendTaskStartedEvent, sendTaskFinishedEvent,
      isFinishedOut, getTriggeredEventType, getStartedEventType, getFinishedEventType,
      keptnEventTypeBase, MonacoEvent, ConfigureMonitoringTaskName]

/-- Witness for C1: the concrete monaco scenario envelope satisfies the
hypotheses, and the conclusion holds there. -/
theorem triggered_with_handler_emits_one_finished_witness :
    ((processKeptnCloudEvent newKeptnSpec .success .success monacoScenarioEvent).emitted.filter
        isFinishedOut).length = 1 ∧
    ∀ e ∈ (processKeptnCloudEvent newKeptnSpec .success .success monacoScenarioEvent).emitted,
      isFinishedOut e = true → e.triggeredId = monacoScenarioEvent.id :=
  triggered_with_handler_emits_one_finished monacoScenarioEvent .success .success
    { project := "p1", stage := "", service := "" } (Or.inl rfl) rfl

/-- Claim C2: for every triggered envelope dispatched to either registered
handler (monaco or configure-monitoring; payload parse succeeded), a fault
of the dispatched handler is caught and converted into exactly one finished
event with status errored; the call returns normally (outcome handled, no
error re-raised), so the fault neither crashes the receiver loop nor drops
the request. The other handler outcome is arbitrary. -/
theorem handler_fault_converted_to_errored_finished (ev : Envelope)
    (d : EventData) (msg : String) (m c : TaskOutcome)
    (hdisp : (ev.type = getTriggeredEventType MonacoEvent ∧ m = .fault msg) ∨
             (ev.type = getTriggeredEventType ConfigureMonitoringTaskName ∧ c = .fault msg))
    (hparse : dataAsEventData ev.data = .ok d) :
    (processKeptnCloudEvent newKeptnSpec m c ev).outcome = .handled none ∧
    ((processKeptnCloudEvent newKeptnSpec m c ev).emitted.filter
        isFinishedOut).length = 1 ∧
    ∀ e ∈ (processKeptnCloudEvent newKeptnSpec m c ev).emitted,
      isFinishedOut e = true → e.status = some .errored := by
  have hp : parseKeptnCloudEventPayload ev = .ok d := by
    unfold parseKeptnCloudEventPayload
    rw [hparse]
  rcases hdisp with ⟨h, hm⟩ | ⟨h, hc⟩ <;> [subst hm; subst hc] <;>
    simp [processKeptnCloudEvent, newKeptnSpec, errOf, h, hp,
      HandleMonacoTriggeredEvent, HandleConfigureMonitoringTriggeredEvent,
      runTriggeredHandler, statusOfOutcome,
      sendTaskStartedEvent, sendTaskFinishedEvent,
      isFinishedOut, getTriggeredEventType, getStartedEventType, getFinishedEventType,
      keptnEventTypeBase, MonacoEvent, ConfigureMonitoringTaskName]

/-- Witness for C2: a fault of the monaco handler on the concrete scenario
envelope yields one finished event with status errored and a normal return. -/
theorem handler_fault_converted_to_errored_finished_witness :
    (processKeptnCloudEvent newKeptnSpec (.fault "boom") .success monacoScenarioEvent).outcome =
      .handled none ∧
    ((processKeptnCloudEvent newKeptnSpec (.fault "boom") .success monacoScenarioEvent).emitted.filter
        isFinishedOut).length = 1 ∧
    ∀ e ∈ (processKeptnCloudEvent newKeptnSpec (.fault "boom") .success monacoScenarioEvent).emitted,
      isFinishedOut e = true → e.status = some .errored :=
  handler_fault_converted_to_errored_finished monacoScenarioEvent
    { project := "p1", stage := "", service := "" } "boom" (.fault "boom") .success
    (Or.inl ⟨rfl, rfl⟩) rfl

/-- Claim C3 (the code violates it): on a monaco.triggered envelope whose
payload does not deserialize into the expected structure, the code reaches
log.Fatalf inside parseKeptnCloudEventPayload (src/main.go line 43) and the
process terminates: no finished event is emitted and no handler is invoked,
contradicting the claim that a payload mismatch is surfaced as a local error
and never terminates the process. -/
theorem payload_mismatch_terminates_process :
    processKeptnCloudEvent newKeptnSpec .success .success mismatchedMonacoEvent =
      { outcome := .fatalExit "Got Data Error: json: cannot unmarshal payload into event data"
        invocations := []
        emitted := [] } := rfl

/-- Claim C4: for every envelope whose type matches no registered
(task-name, triggered) binding, whenever the session constructor succeeds
(for any session constructor), no handler is invoked, nothing is emitted,
and the routing function returns the unhandled no-op outcome — nil to the
transport layer, never an error. -/
theorem unmatched_type_is_noop (newKeptn : Envelope → Except String KeptnHandler)
    (k : KeptnHandler) (ev : Envelope) (o₁ o₂ : TaskOutcome)
    (hk : newKeptn ev = .ok k)
    (h₁ : ev.type ≠ getTriggeredEventType MonacoEvent)
    (h₂ : ev.type ≠ getTriggeredEventType ConfigureMonitoringTaskName) :
    processKeptnCloudEvent newKeptn o₁ o₂ ev =
      { outcome := .unhandled, invocations := [], emitted := [] } := by
  simp [processKeptnCloudEvent, hk, errOf, h₁, h₂]

/-- Witness for C4: a deployment.triggered envelope (no handler registered
for deployment) is logged and dropped as a no-op. -/
theorem unmatched_type_is_noop_witness :
    processKeptnCloudEvent newKeptnSpec .success .success unknownTaskEvent =
      { outcome := .unhandled, invocations := [], emitted := [] } :=
  unmatched_type_is_noop newKeptnSpec
    { keptnContext := "ctx-3", triggeredId := "event-id-3" }
    unknownTaskEvent .success .success rfl (by decide) (by decide)

/-- Claim C5: for every triggered envelope of either registered task
(monaco or configure-monitoring) carrying a correlation id in its
"shkeptncontext" extension, the emitted events are exactly one started and
one finished of that task, and both carry that correlation id unchanged. -/
theorem correlation_id_on_started_and_finished (ev : Envelope) (c : String)
    (d : EventData) (o₁ o₂ : TaskOutcome) (task : String)
    (htype : (ev.type = getTriggeredEventType MonacoEvent ∧ task = MonacoEvent) ∨
             (ev.type = getTriggeredEventType ConfigureMonitoringTaskName ∧
              task = ConfigureMonitoringTaskName))
    (hctx : ev.extensions.lookup "shkeptncontext" = some c)
    (hparse : dataAsEventData ev.data = .ok d) :
    (processKeptnCloudEvent newKeptnSpec o₁ o₂ ev).emitted.map
        (fun e => (e.type, e.shkeptncontext)) =
      [(getStartedEventType task, c), (getFinishedEventType task, c)] := by
  have hp : parseKeptnCloudEventPayload ev = .ok d := by
    unfold parseKeptnCloudEventPayload
    rw [hparse]
  rcases htype with ⟨h, ht⟩ | ⟨h, ht⟩ <;> subst ht <;>
    simp [processKeptnCloudEvent, newKeptnSpec, errOf, h, hp, extensionAs, hctx,
      HandleMonacoTriggeredEvent, HandleConfigureMonitoringTriggeredEvent,
      runTriggeredHandler,
      sendTaskStartedEvent, sendTaskFinishedEvent,
      getTriggeredEventType, getStartedEventType, getFinishedEventType,
      keptnEventTypeBase, MonacoEvent, ConfigureMonitoringTaskName]

/-- Witness for C5: on the concrete configure-monitoring.triggered envelope
with correlation id ctx-5, both the started and the finished event carry
ctx-5. -/
theorem correlation_id_on_started_and_finished_witness :
    (processKeptnCloudEvent newKeptnSpec .success .success cmScenarioEvent).emitted.map
        (fun e => (e.type, e.shkeptncontext)) =
      [(getStartedEventType ConfigureMonitoringTaskName, "ctx-5"),
       (getFinishedEventType ConfigureMonitoringTaskName, "ctx-5")] :=
  correlation_id_on_started_and_finished cmScenarioEvent "ctx-5"
    { project := "p1", stage := "", service := "" } .success .success
    ConfigureMonitoringTaskName (Or.inr ⟨rfl, rfl⟩) rfl rfl

/-- Claim C6: on the inbound envelope of type sh.keptn.event.monaco.triggered
with payload project = p1, the router decodes the payload, invokes the monaco
handler exactly once with it, and — the handler succeeding — emits exactly
one started and one outbound finished event with status succeeded, returning
nil. -/
theorem monaco_triggered_success_scenario :
    processKeptnCloudEvent newKeptnSpec .success .success monacoScenarioEvent =
      { outcome := .handled none
        invocations := [(MonacoEvent, { project := "p1", stage := "", service := "" })]
        emitted := [sendTaskStartedEvent
                      { keptnContext := "ctx-1", triggeredId := "event-id-1" } MonacoEvent,
                    sendTaskFinishedEvent
                      { keptnContext := "ctx-1", triggeredId := "event-id-1" } MonacoEvent
                      .succeeded ""] } := rfl

/-- Claim C7: correlation-context extraction is total (a plain function of
the envelope); when the "shkeptncontext" extension is absent the correlation
id falls back to the empty string; and the missing correlation id never
blocks processing — the routing outcome of processKeptnCloudEvent does not
depend on the extension attributes at all. -/
theorem correlation_extraction_total_with_fallback (ev : Envelope)
    (exts : List (String × String)) (o₁ o₂ : TaskOutcome)
    (h : ev.extensions.lookup "shkeptncontext" = none) :
    (extractCorrelationContext ev).keptnContext = "" ∧
    (processKeptnCloudEvent newKeptnSpec o₁ o₂ { ev with extensions := exts }).outcome =
      (processKeptnCloudEvent newKeptnSpec o₁ o₂ ev).outcome := by
  constructor
  · simp [extractCorrelationContext, extensionAs, h]
  · simp only [processKeptnCloudEvent, newKeptnSpec, errOf]
    cases hp : parseKeptnCloudEventPayload ev <;>
    by_cases h1 : (ev.type == getTriggeredEventType ConfigureMonitoringTaskName) = true <;>
    by_cases h2 : (ev.type == getTriggeredEventType MonacoEvent) = true <;>
      simp_all [HandleMonacoTriggeredEvent, HandleConfigureMonitoringTriggeredEvent,
        runTriggeredHandler, parseKeptnCloudEventPayload]

/-- Witness for C7: an envelope without the "shkeptncontext" extension gets
the empty correlation id, and replacing its extension attributes does not
change the routing outcome. -/
theorem correlation_extraction_total_with_fallback_witness :
    (extractCorrelationContext noContextEvent).keptnContext = "" ∧
    (processKeptnCloudEvent newKeptnSpec .success .success
        { noContextEvent with extensions := [("shkeptncontext", "late-ctx")] }).outcome =
      (processKeptnCloudEvent newKeptnSpec .success .success noContextEvent).outcome :=
  correlation_extraction_total_with_fallback noContextEvent
    [("shkeptncontext", "late-ctx")] .success .success rfl

/-- Auxiliary for C8: reading an encoded extension map back yields the
original list of extension attributes. -/
lemma jsonToExtensions_encode (l : List (String × String)) :
    jsonToExtensions (Json.obj (l.map (fun p => (p.1, Json.str p.2)))) = some l := by
  induction l with
  | nil => rfl
  | cons p t ih =>
    simp only [jsonToExtensions, List.map] at ih ⊢
    rw [List.foldr_cons, ih]

/-- Claim C8: encoding an envelope with the envelope codec and decoding the
result succeeds and yields a structurally identical envelope — type, id,
source, extension attributes and payload are all preserved. -/
theorem decode_encode_roundtrip (e : Envelope) : decode (encode e) = .ok e := by
  simp [encode, decode, List.lookup, jsonToExtensions_encode]

/-- Claim C9: with every environment option unset, the configuration
defaults are port 8080, path "/", mode "local" and empty configuration
service URL; and for every configuration, local-filesystem fetching is
selected exactly when the mode flag is the local default, the remote base
URL always being copied from the configuration surface. -/
theorem config_defaults_and_mode_selection :
    envconfigProcess (fun _ => none) =
      .ok { Port := 8080, Path := "/", Env := "local", ConfigurationServiceUrl := "" } ∧
    ∀ env : envConfig,
      (configureKeptnOptions env).useLocalFileSystem = (env.Env == "local") ∧
      (configureKeptnOptions env).configurationServiceURL = env.ConfigurationServiceUrl := by
  refine ⟨rfl, fun env => ?_⟩
  by_cases h : (env.Env == "local") = true <;> simp [configureKeptnOptions, h]

/-- Claim C10: the second check of the err variable in processKeptnCloudEvent
(src/main.go lines 69-72, logging "failed to parse incoming cloudevent") is
unreachable: for every session constructor, every pair of handler outcomes
and every input envelope, the function never returns through that branch,
since a non-nil err already returned at lines 63-65. -/
theorem second_err_check_unreachable
    (newKeptn : Envelope → Except String KeptnHandler) (o₁ o₂ : TaskOutcome)
    (ev : Envelope) (e : String) :
    (processKeptnCloudEvent newKeptn o₁ o₂ ev).outcome ≠ ProcessOutcome.parseErrorBranch e := by
  unfold processKeptnCloudEvent
  cases h : newKeptn ev with
  | error e0 => simp
  | ok k =>
    simp only [errOf]
    split <;> simp
    · split <;> simp
    · split
      · split <;> simp
      · simp

end MonacoService
